import Mathlib

/-!
Shallow embedding of the jsonplotter repository's data-shaping core:
the `JsonParser` sample store (`src/jsonplotter/JsonParser.py`), the
filter variants (`src/jsonplotter/filters.py`) and the filter chain /
parameter-editing glue (`src/jsonplotter/plotter.py`).  Numeric values
are modelled as rationals; Python lists as Lean lists.
-/

namespace JsonPlotter

/-- A decoded JSON value (the value domain of one record), as produced by
`json.loads` for one line of a log file. -/
inductive JVal where
  | null : JVal
  | bool (b : Bool) : JVal
  | num (q : ℚ) : JVal
  | str (s : String) : JVal
  deriving Repr, DecidableEq

/-- One record: the ordered key/value mapping decoded from one line. -/
abbrev Record := List (String × JVal)

/-- Python `int(q)` on a real-valued argument: truncation toward zero,
i.e. the truncating division of the fraction's numerator by its denominator. -/
def pyInt (q : ℚ) : ℤ :=
  Int.tdiv q.num q.den

/-- Numeric value of a digit string (most significant first). -/
def digitsVal (cs : List Char) : ℕ :=
  cs.foldl (fun n c => 10 * n + (c.toNat - 48)) 0

/-- Python `float(s)` on a string, modelled on the numeric-literal core
(optional sign, integer digits, optional fraction digits); exponent,
surrounding whitespace and `inf`/`nan` spellings are outside the
behaviours the repository's logs exercise and are rejected here. -/
def strFloat? (s : String) : Option ℚ :=
  let cs := s.data
  let signNeg := cs.head? = some '-'
  let body := if cs.head? = some '-' ∨ cs.head? = some '+' then cs.drop 1 else cs
  let ip := body.takeWhile (fun c => !(c = '.'))
  let rest := body.dropWhile (fun c => !(c = '.'))
  let fp := rest.drop 1
  if ip.all Char.isDigit && fp.all Char.isDigit && !fp.any (fun c => c = '.')
      && !(ip.isEmpty && fp.isEmpty) then
    some ((if signNeg then -1 else 1) *
      ((digitsVal ip : ℚ) + (digitsVal fp : ℚ) / (10 ^ fp.length : ℚ)))
  else
    none

/-- Python `float(v)` applied to a decoded JSON value: numbers pass through,
booleans become 0/1, strings go through the literal parser, `null` raises
(here: `none`). -/
def pyFloat : JVal → Option ℚ
  | .num q => some q
  | .bool b => some (if b then 1 else 0)
  | .str s => strFloat? s
  | .null => none

/-- Python `log[topic]` / `topic in log` on a decoded record. -/
def lookup? (r : Record) (topic : String) : Option JVal :=
  (r.find? (fun kv => kv.1 = topic)).map (fun kv => kv.2)

/-- The sample store: `JsonParser.logs`, the list of decoded records in
arrival order. -/
structure JsonParser where
  logs : List Record
  deriving Repr, DecidableEq

/-- `JsonParser.parse_line`: lines not starting with `{` are rejected by the
cheap pre-filter; otherwise the line is decoded (`json.loads`, passed in as
`decode`) and appended on success, silently dropped on failure. -/
def parse_line (decode : String → Option Record) (p : JsonParser) (line : String) :
    JsonParser :=
  if line.data.head? = some '\x7b' then
    match decode line with
    | some r => ⟨p.logs ++ [r]⟩
    | none => p
  else
    p

/-- `JsonParser.get_topic_values`: walks the logs in order; for records
carrying the topic, when `numeral` is true the value is cast with `float`
and appended (dropped with a printed diagnostic if the cast fails).  The
append statement sits inside the `if numeral:` branch in the source, so
nothing is ever appended when `numeral` is false. -/
def get_topic_values (p : JsonParser) (topic : String) (numeral : Bool) :
    List JVal :=
  p.logs.foldl
    (fun values log =>
      match lookup? log topic with
      | some value =>
          if numeral then
            match pyFloat value with
            | some q => values ++ [JVal.num q]
            | none => values
          else
            values
      | none => values)
    []

/-- The two hard failures of loading a file: the extension check in
`JsonParser.__init__` (an `IOError`) and the failed `open` in
`JsonParser.parse_file` (a `FileNotFoundError`). -/
inductive LoadError where
  | invalidExtension : LoadError
  | fileNotFound : LoadError
  deriving Repr, DecidableEq

/-- A file system, mapping a path to its lines when the file can be opened. -/
abbrev FileSystem := String → Option (List String)

/-- The `for idx, line in enumerate(f)` loop of `JsonParser.parse_file`:
decodable lines are appended to the logs, each malformed line is skipped and
its 0-based index is reported in the diagnostic stream (second component). -/
def parseLines (decode : String → Option Record) : ℕ → List String → List Record × List ℕ
  | _, [] => ([], [])
  | idx, line :: rest =>
      let acc := parseLines decode (idx + 1) rest
      match decode line with
      | some r => (r :: acc.1, acc.2)
      | none => (acc.1, idx :: acc.2)

/-- `JsonParser.parse_file`: raises `FileNotFoundError` when the path cannot
be opened, otherwise runs the per-line parse-or-skip loop. -/
def parse_file (decode : String → Option Record) (fs : FileSystem) (filename : String) :
    Except LoadError (List Record × List ℕ) :=
  match fs filename with
  | none => .error .fileNotFound
  | some lines => .ok (parseLines decode 0 lines)

/-- Python `s.endswith(pat)`: the pattern is a suffix of the string. -/
def pyEndsWith (s pat : String) : Bool :=
  pat.data.isSuffixOf s.data

/-- `JsonParser.__init__` with a filename (the file-ingestion entry point):
the extension is validated before any file access; only then is the file
opened and parsed.  Returns the populated store and the skipped-line
diagnostics. -/
def jsonParserInit (decode : String → Option Record) (fs : FileSystem)
    (filename : String) : Except LoadError (JsonParser × List ℕ) :=
  if pyEndsWith filename ".json" then
    match parse_file decode fs filename with
    | .ok acc => .ok (⟨acc.1⟩, acc.2)
    | .error e => .error e
  else
    .error .invalidExtension

/-! ## Filters (`src/jsonplotter/filters.py`) -/

/-- `np.median`: middle element of the sorted data for odd length, mean of
the two middle elements for even length. -/
def median (xs : List ℚ) : ℚ :=
  let s := xs.insertionSort (fun a b => a ≤ b)
  let n := xs.length
  if n % 2 = 1 then s.getD (n / 2) 0
  else (s.getD (n / 2 - 1) 0 + s.getD (n / 2) 0) / 2

/-- `np.mean`: the arithmetic mean. -/
def mean (xs : List ℚ) : ℚ :=
  xs.sum / xs.length

/-- Python `min` on a non-empty list. -/
def pyMin : List ℚ → ℚ
  | [] => 0
  | x :: rest => rest.foldl min x

/-- `DEFAULT_WIDTH` from `filters.py`. -/
def DEFAULT_WIDTH : ℕ := 21

/-- `DEFAULT_ELIMINATION_RATIO` from `filters.py`. -/
def DEFAULT_ELIMINATION_RATIO : ℚ := 1

/-- The attribute state of a `MovingMedian` instance: `input`, `width`,
`ratio` and the stored `cutExtrema` field. -/
structure MovingMedian where
  input : List ℚ
  width : ℕ
  ratio : ℚ
  cutExtrema : ℤ
  deriving Repr, DecidableEq

/-- `MovingMedian.__init__`: stores the window parameters and computes
`self.cutExtrema = int(self.width * self.ratio / 2)` once. -/
def MovingMedian.init (inputData : List ℚ) (width : ℕ) (r : ℚ) : MovingMedian :=
  ⟨inputData, width, r, pyInt (width * r / 2)⟩

/-- One full-window slice `self.input[i : i + self.width]`. -/
def window (input : List ℚ) (width i : ℕ) : List ℚ :=
  (input.drop i).take width

/-- `MovingMedian.apply`: inputs shorter than the window pass through
unchanged; with `ratio == 1` each window contributes its median; otherwise
each window is sorted and averaged, with `cutExtrema` elements cut from each
end when `cutExtrema > 0` (the slice `currentBlock[cutExtrema : -cutExtrema]`).
The loop runs `i` over `range(len(input) - width)`. -/
def MovingMedian.apply (m : MovingMedian) : List ℚ :=
  if m.input.length < m.width then m.input
  else if m.ratio = 1 then
    (List.range (m.input.length - m.width)).map
      (fun i => median (window m.input m.width i))
  else
    (List.range (m.input.length - m.width)).map
      (fun i =>
        let sorted := (window m.input m.width i).insertionSort (fun a b => a ≤ b)
        if 0 < m.cutExtrema then
          mean ((sorted.drop m.cutExtrema.toNat).take
            (m.width - 2 * m.cutExtrema.toNat))
        else
          mean sorted)

/-- The effect of `ParametersPopup.setParam` with parameter name `width`
(`setattr(self.filterRef, 'width', val)`): only the named attribute changes. -/
def MovingMedian.setWidth (m : MovingMedian) (w : ℕ) : MovingMedian :=
  { m with width := w }

/-- The effect of `ParametersPopup.setParam` with parameter name `ratio`
(`setattr(self.filterRef, 'ratio', val)`): only the named attribute changes. -/
def MovingMedian.setRatio (m : MovingMedian) (r : ℚ) : MovingMedian :=
  { m with ratio := r }

/-- The `f.input = outputData` assignment done by the filter chain. -/
def MovingMedian.setInput (m : MovingMedian) (v : List ℚ) : MovingMedian :=
  { m with input := v }

/-- `MovingAverage.__init__`: a `MovingMedian` constructed with `ratio = 0`;
`apply` is inherited unchanged. -/
def MovingAverage.init (inputData : List ℚ) (width : ℕ) : MovingMedian :=
  MovingMedian.init inputData width 0

/-- `MedianCentering.apply`: on a truthy (non-empty) input, subtracts the
input's median from every element; on a falsy input falls through and
returns `None`. -/
def MedianCentering.apply (input : List ℚ) : Option (List ℚ) :=
  if input.isEmpty then none
  else some (input.map (fun x => x - median input))

/-- `MeanCentering.apply`: same shape with the arithmetic mean. -/
def MeanCentering.apply (input : List ℚ) : Option (List ℚ) :=
  if input.isEmpty then none
  else some (input.map (fun x => x - mean input))

/-- `MinCentering.apply`: same shape with the minimum value. -/
def MinCentering.apply (input : List ℚ) : Option (List ℚ) :=
  if input.isEmpty then none
  else some (input.map (fun x => x - pyMin input))

/-- `FiltersModel.apply` (`plotter.py`): starting from the input vector,
each enabled filter receives the previous stage's output as its `input`
and its `apply()` result becomes the running value; the last result is
returned.  A stage is the function `v ↦ (filter with input := v).apply()`. -/
def FiltersModel.apply (chain : List (List ℚ → List ℚ)) (inputData : List ℚ) : List ℚ :=
  chain.foldl (fun outputData f => f outputData) inputData

/-- The stage function a `MovingMedian` instance contributes to the chain. -/
def stageOfMedian (m : MovingMedian) : List ℚ → List ℚ :=
  fun v => (m.setInput v).apply

/-! ## The user-parameter registry (`Filter.userParams` setter) -/

/-- The declared target type of a user parameter (`int` or `float` in the
`userParams` dictionaries of `filters.py`). -/
inductive PType where
  | int : PType
  | float : PType
  deriving Repr, DecidableEq

/-- Python dict assignment `d[k] = v`: replaces the value of an existing key
in place, otherwise appends the new pair at the end. -/
def dictInsert (d : List (String × PType)) (k : String) (v : PType) :
    List (String × PType) :=
  match d with
  | [] => [(k, v)]
  | kv :: rest => if kv.1 = k then (k, v) :: rest else kv :: dictInsert rest k v

/-- Python dict lookup `d[k]` as an option. -/
def dictLookup (d : List (String × PType)) (k : String) : Option PType :=
  (d.find? (fun kv => kv.1 = k)).map (fun kv => kv.2)

/-- The attribute/parameter view of a filter instance: the names of its
pre-existing attributes (what `hasattr` sees) and its `_userParams` dict. -/
structure PyObject where
  attrs : List String
  userParams : List (String × PType)
  deriving Repr, DecidableEq

/-- The `userParams` property setter of `Filter`: for each requested
parameter, the entry is registered only when `hasattr(self, param)` holds;
otherwise the entry is skipped with no state change and no diagnostic. -/
def setUserParams (obj : PyObject) (params : List (String × PType)) : PyObject :=
  { obj with
    userParams := params.foldl
      (fun acc p => if p.1 ∈ obj.attrs then dictInsert acc p.1 p.2 else acc)
      obj.userParams }

/-- The attributes a `MovingMedian` instance owns right before
`self.userParams = {'width': int, 'ratio': float}` runs in `__init__`
(`_userParams` from `Filter.__init__`, then the four assignments). -/
def MovingMedian.attrNames : List String :=
  ["_userParams", "input", "width", "ratio", "cutExtrema"]

/-- The parameter registry of a freshly constructed `MovingMedian`. -/
def MovingMedian.initObject : PyObject :=
  setUserParams ⟨MovingMedian.attrNames, []⟩ [("width", PType.int), ("ratio", PType.float)]

/-- The parameter registry of a freshly constructed `MovingAverage`: its
`__init__` only delegates to `MovingMedian.__init__`, so the registration is
identical. -/
def MovingAverage.initObject : PyObject :=
  MovingMedian.initObject

/-! ## Helper lemmas -/

/-- Sorting a window does not change its arithmetic mean. -/
lemma mean_insertionSort (l : List ℚ) :
    mean (l.insertionSort (fun a b => a ≤ b)) = mean l := by
  have hp : List.Perm (l.insertionSort (fun a b => a ≤ b)) l :=
    List.perm_insertionSort _ l
  unfold mean
  rw [hp.sum_eq, hp.length_eq]

lemma pyInt_zero : pyInt 0 = 0 := by
  simp [pyInt]

/-- Truncation agrees with the floor on nonnegative arguments. -/
lemma pyInt_eq_floor (q : ℚ) (hq : 0 ≤ q) : pyInt q = ⌊q⌋ := by
  unfold pyInt
  rw [Int.tdiv_eq_ediv (Rat.num_nonneg.mpr hq) (Int.natCast_nonneg _), Rat.floor_def]

lemma cast_mul_zero_div (w : ℕ) : (w : ℚ) * 0 / 2 = 0 := by
  ring

/-- A `MovingMedian` whose stored `cutExtrema` is `0` and whose ratio is not
`1` averages each full window. -/
lemma apply_cut_zero (m : MovingMedian) (hr : ¬ m.ratio = 1) (hc : m.cutExtrema = 0)
    (h : m.width ≤ m.input.length) :
    m.apply = (List.range (m.input.length - m.width)).map
      (fun i => mean (window m.input m.width i)) := by
  unfold MovingMedian.apply
  rw [if_neg (Nat.not_lt.mpr h), if_neg hr]
  simp only [hc]
  simp only [lt_self_iff_false, if_false, mean_insertionSort]

/-- Elementwise description of subtracting a constant from a list. -/
lemma getD_map_sub (l : List ℚ) (c : ℚ) (i : ℕ) (hi : i < l.length) :
    (l.map (fun x => x - c)).getD i 0 = l.getD i 0 - c := by
  rw [List.getD_eq_getElem _ _ (by simpa using hi), List.getD_eq_getElem _ _ hi,
    List.getElem_map]

/-- The per-line loop of `parse_file` keeps exactly the decodable lines, in
order, and reports the absolute index of every malformed line. -/
lemma parseLines_spec (decode : String → Option Record) (lines : List String) :
    ∀ k, (parseLines decode k lines).1 = lines.filterMap decode ∧
      (parseLines decode k lines).2 =
        ((List.enumFrom k lines).filter (fun p => (decode p.2).isNone)).map Prod.fst := by
  induction lines with
  | nil => intro k; exact ⟨rfl, rfl⟩
  | cons line rest ih =>
      intro k
      have h1 := (ih (k + 1)).1
      have h2 := (ih (k + 1)).2
      cases hd : decode line with
      | some r =>
          constructor
          · simp [parseLines, hd, List.filterMap_cons, h1]
          · simp [parseLines, hd, List.enumFrom, List.filter_cons, h2]
      | none =>
          constructor
          · simp [parseLines, hd, List.filterMap_cons, h1]
          · simp [parseLines, hd, List.enumFrom, List.filter_cons, h2]

/-- Looking up a freshly assigned key in a Python dict yields its value. -/
lemma dictLookup_insert (d : List (String × PType)) (k : String) (v : PType) :
    dictLookup (dictInsert d k v) k = some v := by
  induction d with
  | nil => simp [dictInsert, dictLookup, List.find?]
  | cons kv rest ih =>
      by_cases hk : kv.1 = k
      · simp [dictInsert, hk, dictLookup, List.find?]
      · simp only [dictInsert, if_neg hk]
        simpa [dictLookup, List.find?, hk] using ih

/-- Entries whose name is not an existing attribute contribute nothing to the
registration fold. -/
lemma foldl_params_filter (attrs : List String) (params : List (String × PType)) :
    ∀ acc, params.foldl
        (fun acc p => if p.1 ∈ attrs then dictInsert acc p.1 p.2 else acc) acc =
      (params.filter (fun p => decide (p.1 ∈ attrs))).foldl
        (fun acc p => if p.1 ∈ attrs then dictInsert acc p.1 p.2 else acc) acc := by
  induction params with
  | nil => intro acc; rfl
  | cons p rest ih =>
      intro acc
      by_cases hp : p.1 ∈ attrs
      · rw [List.filter_cons_of_pos (by simpa using hp)]
        simp only [List.foldl_cons, if_pos hp]
        exact ih _
      · rw [List.filter_cons_of_neg (by simpa using hp)]
        simp only [List.foldl_cons, if_neg hp]
        exact ih _

/-! ## Concrete decoders used to evaluate the store on the spec's examples -/

/-- The round-trip example line from the spec. -/
def jsonAB : String := "\x7b\"a\": 1, \"b\": \"x\"\x7d"

/-- `json.loads` on the round-trip example line (and nothing else). -/
def decodeAB : String → Option Record := fun s =>
  if s = jsonAB then some [("a", JVal.num 1), ("b", JVal.str "x")] else none

/-- `json.loads` restricted to the two well-formed lines of the spec's
malformed-line example file. -/
def decodeDemo : String → Option Record := fun s =>
  if s = "\x7b\"a\":1\x7d" then some [("a", JVal.num 1)]
  else if s = "\x7b\"a\":2\x7d" then some [("a", JVal.num 2)]
  else none

/-- The malformed-line example file: one bad line between two good ones. -/
def fsDemo : FileSystem := fun path =>
  if path = "log.json" then
    some ["\x7b\"a\":1\x7d", "not json", "\x7b\"a\":2\x7d"]
  else
    none

/-! ## Claims -/

/-- C1: after ingesting the record from the text `'{"a": 1, "b": "x"}'` into
a fresh store, `get_topic_values` returns `[1.0]` for topic `a` with
`numeral = true` and `[]` for topic `b` with `numeral = true` (the
non-numeric value is dropped), exactly as claimed; but with `numeral = false`
it returns `[]`, not the recorded `["x"]`: the append statement sits inside
the `if numeral:` branch, so the non-numeric path promised by the function's
own docstring ("If False, the original type is kept") never yields anything. -/
theorem C1_roundtrip_behavior :
    get_topic_values (parse_line decodeAB ⟨[]⟩ jsonAB) "a" true = [JVal.num 1] ∧
    get_topic_values (parse_line decodeAB ⟨[]⟩ jsonAB) "b" true = [] ∧
    get_topic_values (parse_line decodeAB ⟨[]⟩ jsonAB) "b" false = [] ∧
    get_topic_values (parse_line decodeAB ⟨[]⟩ jsonAB) "b" false ≠ [JVal.str "x"] := by
  refine ⟨by decide, by decide, by decide, by decide⟩

/-- C2 counterexample: on the default instance `MovingMedian()` (width 21,
ratio 1), the user edit `ratio := 1/2` through `ParametersPopup.setParam`
leaves `cutExtrema` at its construction value 10, while
`floor(width * ratio / 2)` of the edited state is 5. -/
theorem C2_counterexample :
    ((MovingMedian.init [] 21 1).setRatio (1/2)).cutExtrema ≠
      ⌊((((MovingMedian.init [] 21 1).setRatio (1/2)).width : ℚ) *
          ((MovingMedian.init [] 21 1).setRatio (1/2)).ratio / 2)⌋ := by
  have h1 : ((MovingMedian.init [] 21 1).setRatio (1/2)).cutExtrema = 10 := by
    show pyInt ((21 : ℕ) * (1 : ℚ) / 2) = 10
    rw [pyInt_eq_floor _ (by norm_num)]
    norm_num
  have h2 : ⌊((((MovingMedian.init [] 21 1).setRatio (1/2)).width : ℚ) *
      ((MovingMedian.init [] 21 1).setRatio (1/2)).ratio / 2)⌋ = 5 := by
    show ⌊((21 : ℕ) * (1/2 : ℚ) / 2)⌋ = 5
    norm_num
  rw [h1, h2]
  decide

/-- C2 (amended): `cutExtrema = int(width * ratio / 2)` holds at
construction, and equals `floor(width * ratio / 2)` whenever the ratio is
nonnegative; but a user edit of `width` or `ratio` through
`ParametersPopup.setParam` only runs `setattr` on the named attribute, so
`cutExtrema` keeps its construction-time value and `apply()` keeps trimming
with that stored value. -/
theorem C2_cutExtrema_lifecycle (inputData : List ℚ) (w : ℕ) (r : ℚ) :
    (MovingMedian.init inputData w r).cutExtrema = pyInt (w * r / 2) ∧
    (0 ≤ r → (MovingMedian.init inputData w r).cutExtrema = ⌊((w : ℚ) * r / 2)⌋) ∧
    (∀ (m : MovingMedian) (r' : ℚ), (m.setRatio r').cutExtrema = m.cutExtrema) ∧
    (∀ (m : MovingMedian) (w' : ℕ), (m.setWidth w').cutExtrema = m.cutExtrema) := by
  refine ⟨rfl, fun hr => ?_, fun m r' => rfl, fun m w' => rfl⟩
  show pyInt ((w : ℚ) * r / 2) = ⌊((w : ℚ) * r / 2)⌋
  exact pyInt_eq_floor _ (div_nonneg (mul_nonneg (by positivity) hr) (by norm_num))

/-- C2 witness: the lifecycle statement evaluated at width 4, ratio 1/2. -/
theorem C2_witness :
    (MovingMedian.init [] 4 (1/2)).cutExtrema = ⌊((4 : ℚ) * (1/2 : ℚ) / 2)⌋ := by
  have h := (C2_cutExtrema_lifecycle [] 4 (1/2)).2.1 (by norm_num)
  simpa using h

/-- C3: with `ratio = 1` and an input at least `width` long, `apply()` is the
map sending each offset `i` in `range(len(input) - width)` to the median of
the window `input[i : i+width]`; the output has exactly `len(input) - width`
entries, never `len(input) - width + 1`. -/
theorem C3_ratio_one_medians (inputData : List ℚ) (w : ℕ)
    (h : w ≤ inputData.length) :
    (MovingMedian.init inputData w 1).apply =
      (List.range (inputData.length - w)).map (fun i => median (window inputData w i)) ∧
    (MovingMedian.init inputData w 1).apply.length = inputData.length - w ∧
    (MovingMedian.init inputData w 1).apply.length ≠ inputData.length - w + 1 := by
  have h1 : ¬ inputData.length < w := Nat.not_lt.mpr h
  have hmap : (MovingMedian.init inputData w 1).apply =
      (List.range (inputData.length - w)).map (fun i => median (window inputData w i)) := by
    unfold MovingMedian.apply MovingMedian.init
    rw [if_neg h1, if_pos rfl]
  refine ⟨hmap, ?_, ?_⟩
  · rw [hmap, List.length_map, List.length_range]
  · rw [hmap, List.length_map, List.length_range]
    exact (Nat.lt_succ_self _).ne

/-- C3 witness: `[1, 2, 3]` with width 2 yields exactly one window median. -/
theorem C3_witness :
    (MovingMedian.init [1, 2, 3] 2 1).apply.length = ([1, 2, 3] : List ℚ).length - 2 :=
  (C3_ratio_one_medians [1, 2, 3] 2 (by decide)).2.1

/-- C4: `MovingAverage(width)` is a `MovingMedian` constructed with
`ratio = 0`, so the two `apply()` results agree on every input; and on
inputs at least `width` long the output maps each of the
`len(input) - width` offsets to the arithmetic mean of its full window. -/
theorem C4_movingAverage_equiv (inputData : List ℚ) (w : ℕ) :
    (MovingAverage.init inputData w).apply = (MovingMedian.init inputData w 0).apply ∧
    (w ≤ inputData.length →
      (MovingAverage.init inputData w).apply =
        (List.range (inputData.length - w)).map (fun i => mean (window inputData w i)) ∧
      (MovingAverage.init inputData w).apply.length = inputData.length - w) := by
  refine ⟨rfl, fun h => ?_⟩
  have hmap : (MovingAverage.init inputData w).apply =
      (List.range (inputData.length - w)).map (fun i => mean (window inputData w i)) := by
    apply apply_cut_zero
    · norm_num [MovingAverage.init, MovingMedian.init]
    · simp [MovingAverage.init, MovingMedian.init, cast_mul_zero_div, pyInt_zero]
    · exact h
  exact ⟨hmap, by rw [hmap, List.length_map, List.length_range]⟩

/-- C4 witness: `[1, 2, 3, 4, 5, 6]` with width 3 yields three window means. -/
theorem C4_witness :
    (MovingAverage.init [1, 2, 3, 4, 5, 6] 3).apply.length =
      ([1, 2, 3, 4, 5, 6] : List ℚ).length - 3 :=
  ((C4_movingAverage_equiv [1, 2, 3, 4, 5, 6] 3).2 (by decide)).2

/-- C5: whatever the stored ratio and cutExtrema, an input strictly shorter
than the window width passes through `apply()` unchanged. -/
theorem C5_short_input_identity (m : MovingMedian) (h : m.input.length < m.width) :
    m.apply = m.input := by
  unfold MovingMedian.apply
  rw [if_pos h]

/-- C5 witness: a two-element input with width 5 and ratio 3/4. -/
theorem C5_witness :
    (MovingMedian.init [1, 2] 5 (3/4)).apply = [1, 2] :=
  C5_short_input_identity (MovingMedian.init [1, 2] 5 (3/4)) (by decide)

/-- C6: on a non-empty input each centering filter returns a same-length
vector subtracting the whole-input median, mean or minimum elementwise
(`MeanCentering` on `[1,2,3,4,5]` gives `[-2,-1,0,1,2]`); on an empty input
each returns `None` instead of raising. -/
theorem C6_centering_filters (inputData : List ℚ) (h : inputData ≠ []) :
    (∃ out, MedianCentering.apply inputData = some out ∧
      out.length = inputData.length ∧
      ∀ i, i < inputData.length →
        out.getD i 0 = inputData.getD i 0 - median inputData) ∧
    (∃ out, MeanCentering.apply inputData = some out ∧
      out.length = inputData.length ∧
      ∀ i, i < inputData.length →
        out.getD i 0 = inputData.getD i 0 - mean inputData) ∧
    (∃ out, MinCentering.apply inputData = some out ∧
      out.length = inputData.length ∧
      ∀ i, i < inputData.length →
        out.getD i 0 = inputData.getD i 0 - pyMin inputData) ∧
    MeanCentering.apply [1, 2, 3, 4, 5] = some [-2, -1, 0, 1, 2] ∧
    MedianCentering.apply [] = none ∧ MeanCentering.apply [] = none ∧
    MinCentering.apply [] = none := by
  have hne : ¬ inputData.isEmpty = true := by
    simpa [List.isEmpty_iff] using h
  refine ⟨⟨_, ?_, List.length_map _ _, fun i hi => getD_map_sub _ _ i hi⟩,
    ⟨_, ?_, List.length_map _ _, fun i hi => getD_map_sub _ _ i hi⟩,
    ⟨_, ?_, List.length_map _ _, fun i hi => getD_map_sub _ _ i hi⟩, ?_, rfl, rfl, rfl⟩
  · rw [MedianCentering.apply, if_neg hne]
  · rw [MeanCentering.apply, if_neg hne]
  · rw [MinCentering.apply, if_neg hne]
  · rw [MeanCentering.apply]
    norm_num [mean, List.sum_cons, List.sum_nil]

/-- C6 witness: the conjunction evaluated on the non-empty input
`[1, 2, 3, 4, 5]`, extracting the concrete `MeanCentering` example. -/
theorem C6_witness :
    MeanCentering.apply [1, 2, 3, 4, 5] = some [-2, -1, 0, 1, 2] :=
  (C6_centering_filters [1, 2, 3, 4, 5] (by decide)).2.2.2.1

/-- C7: the chain loop of `FiltersModel.apply` with no enabled filter
returns its input unchanged; with a first stage `f` and remaining chain, it
feeds the input to `f` and continues with `f`'s output, so each stage's
input is the previous stage's output and the last output is returned.  A
`MovingMedian` stage receives the running vector through its `input`
attribute before `apply()` runs. -/
theorem C7_chain_composition (inputData : List ℚ) :
    FiltersModel.apply [] inputData = inputData ∧
    (∀ (f : List ℚ → List ℚ) (chain : List (List ℚ → List ℚ)),
      FiltersModel.apply (f :: chain) inputData =
        FiltersModel.apply chain (f inputData)) ∧
    (∀ (m : MovingMedian) (chain : List (List ℚ → List ℚ)),
      FiltersModel.apply (stageOfMedian m :: chain) inputData =
        FiltersModel.apply chain ((m.setInput inputData).apply)) :=
  ⟨rfl, fun _ _ => rfl, fun _ _ => rfl⟩

/-- C8: loading a file whose name lacks the `.json` suffix fails with the
invalid-extension error for every file system (so before any I/O); an
unopenable path fails with the not-found error; otherwise the load succeeds
unconditionally, keeping exactly the decodable lines in order and emitting
one diagnostic carrying the 0-based index of each malformed line. -/
theorem C8_file_load (decode : String → Option Record) (fs : FileSystem)
    (filename : String) :
    (pyEndsWith filename ".json" = false →
      jsonParserInit decode fs filename = .error .invalidExtension) ∧
    (pyEndsWith filename ".json" = true → fs filename = none →
      jsonParserInit decode fs filename = .error .fileNotFound) ∧
    (∀ lines, pyEndsWith filename ".json" = true → fs filename = some lines →
      jsonParserInit decode fs filename =
        .ok (⟨lines.filterMap decode⟩,
          ((List.enumFrom 0 lines).filter (fun p => (decode p.2).isNone)).map
            Prod.fst)) := by
  refine ⟨fun hext => ?_, fun hext hfs => ?_, fun lines hext hfs => ?_⟩
  · rw [jsonParserInit, if_neg (by simp [hext])]
  · rw [jsonParserInit, if_pos (by simp [hext]), parse_file, hfs]
  · rw [jsonParserInit, if_pos (by simp [hext]), parse_file, hfs]
    have h1 := (parseLines_spec decode lines 0).1
    have h2 := (parseLines_spec decode lines 0).2
    simp only [h1, h2]

/-- C8 witness: the spec's three-line example file, a wrong extension and a
missing path, evaluated concretely. -/
theorem C8_witness :
    jsonParserInit decodeDemo fsDemo "log.txt" = .error .invalidExtension ∧
    jsonParserInit decodeDemo fsDemo "missing.json" = .error .fileNotFound ∧
    jsonParserInit decodeDemo fsDemo "log.json" =
      .ok (⟨[[("a", JVal.num 1)], [("a", JVal.num 2)]]⟩, [1]) := by
  refine ⟨(C8_file_load decodeDemo fsDemo "log.txt").1 (by decide),
    (C8_file_load decodeDemo fsDemo "missing.json").2.1 (by decide) (by decide), ?_⟩
  have h := (C8_file_load decodeDemo fsDemo "log.json").2.2
    ["\x7b\"a\":1\x7d", "not json", "\x7b\"a\":2\x7d"] (by decide) (by decide)
  rw [h]
  exact congrArg Except.ok (by decide)

/-- C9: registration through the `userParams` setter leaves the attribute
set untouched; a name that is not a pre-existing attribute is skipped with
no state change at all (the whole call is a no-op for such a singleton, and
in general only the entries whose names are attributes matter); a name that
is a pre-existing attribute is registered under its declared type. -/
theorem C9_param_registration (obj : PyObject) (params : List (String × PType)) :
    (setUserParams obj params).attrs = obj.attrs ∧
    (∀ name ty, name ∉ obj.attrs → setUserParams obj [(name, ty)] = obj) ∧
    setUserParams obj params =
      setUserParams obj (params.filter (fun p => decide (p.1 ∈ obj.attrs))) ∧
    (∀ name ty, name ∈ obj.attrs →
      dictLookup (setUserParams obj [(name, ty)]).userParams name = some ty) := by
  refine ⟨rfl, fun name ty hn => ?_, ?_, fun name ty hn => ?_⟩
  · simp [setUserParams, hn]
  · unfold setUserParams
    rw [foldl_params_filter obj.attrs params obj.userParams]
  · simp [setUserParams, dictLookup_insert, hn]

/-- C9 witness: registering the undeclared name `bogus` on a fresh
`MovingMedian`'s registry is a no-op. -/
theorem C9_witness :
    setUserParams MovingMedian.initObject [("bogus", PType.int)] =
      MovingMedian.initObject :=
  (C9_param_registration MovingMedian.initObject []).2.1 "bogus" PType.int (by decide)

/-- C10 counterexample: starting from `MovingAverage(width=4)` on input
`[0, 0, 0, 100, 0]`, the user edit `ratio := 1/2` produces an instance whose
`apply()` differs from `MovingMedian(width=4, ratio=1/2)` on the same input:
the stored `cutExtrema` is still 0, so no trimming happens. -/
theorem C10_counterexample :
    ((MovingAverage.init [0, 0, 0, 100, 0] 4).setRatio (1/2)).apply ≠
      (MovingMedian.init [0, 0, 0, 100, 0] 4 (1/2)).apply := by
  have hL : ((MovingAverage.init [0, 0, 0, 100, 0] 4).setRatio (1/2)).apply
      = [25] := by
    rw [apply_cut_zero _ (by show ¬ (1/2 : ℚ) = 1; norm_num) ?hc (by decide)]
    case hc =>
      show pyInt ((4 : ℕ) * (0 : ℚ) / 2) = 0
      rw [cast_mul_zero_div]
      exact pyInt_zero
    show [mean (window [0, 0, 0, 100, 0] 4 0)] = [25]
    norm_num [window, mean, List.sum_cons, List.sum_nil]
  have hR : (MovingMedian.init [0, 0, 0, 100, 0] 4 (1/2)).apply = [0] := by
    have hcut : (MovingMedian.init [0, 0, 0, 100, 0] 4 (1/2)).cutExtrema = 1 := by
      show pyInt ((4 : ℕ) * (1/2 : ℚ) / 2) = 1
      rw [pyInt_eq_floor _ (by norm_num)]
      norm_num
    rw [MovingMedian.apply, if_neg (by decide),
      if_neg (by show ¬ (1/2 : ℚ) = 1; norm_num), hcut]
    show [mean ((((window [0, 0, 0, 100, 0] 4 0).insertionSort
      (fun a b => a ≤ b)).drop 1).take (4 - 2 * 1))] = [0]
    norm_num [window, mean, List.sum_cons, List.sum_nil]
  rw [hL, hR]
  decide

/-- C10 (amended): `MovingAverage` does inherit both `width` and `ratio` as
user-editable parameters, so the presentation layer can set `ratio` to a
nonzero value; but such an edit leaves the stored `cutExtrema` at 0, so for
every ratio other than 1 the edited instance still computes full-window
arithmetic means, and only the edit `ratio := 1` makes it behave as a
`MovingMedian` with that ratio. -/
theorem C10_movingAverage_after_edit (inputData : List ℚ) (w : ℕ) (r : ℚ) :
    (dictLookup MovingAverage.initObject.userParams "width" = some PType.int ∧
     dictLookup MovingAverage.initObject.userParams "ratio" = some PType.float) ∧
    ((MovingAverage.init inputData w).setRatio r).cutExtrema = 0 ∧
    (r = 1 → ((MovingAverage.init inputData w).setRatio r).apply =
      (MovingMedian.init inputData w 1).apply) ∧
    (¬ r = 1 → w ≤ inputData.length →
      ((MovingAverage.init inputData w).setRatio r).apply =
        (List.range (inputData.length - w)).map
          (fun i => mean (window inputData w i))) := by
  have hc : ((MovingAverage.init inputData w).setRatio r).cutExtrema = 0 := by
    show pyInt ((w : ℕ) * (0 : ℚ) / 2) = 0
    rw [cast_mul_zero_div]
    exact pyInt_zero
  refine ⟨⟨by decide, by decide⟩, hc, fun hr1 => ?_, fun hr hw => ?_⟩
  · subst hr1
    show MovingMedian.apply ⟨inputData, w, 1, _⟩ = MovingMedian.apply ⟨inputData, w, 1, _⟩
    rw [MovingMedian.apply, MovingMedian.apply]
    by_cases hl : inputData.length < w
    · rw [if_pos hl, if_pos hl]
    · rw [if_neg hl, if_neg hl, if_pos rfl, if_pos rfl]
  · exact apply_cut_zero _ hr hc hw

/-- C10 witness: the amended statement evaluated at width 4, ratio 1/2 on
`[0, 0, 0, 100, 0]`. -/
theorem C10_witness :
    ((MovingAverage.init [0, 0, 0, 100, 0] 4).setRatio (1/2)).apply =
      (List.range (([0, 0, 0, 100, 0] : List ℚ).length - 4)).map
        (fun i => mean (window [0, 0, 0, 100, 0] 4 i)) :=
  (C10_movingAverage_after_edit [0, 0, 0, 100, 0] 4 (1/2)).2.2.2
    (by norm_num) (by decide)

end JsonPlotter
